import Mathlib

/-!
Verification of the streaming signal engine of the trader2 repository.

The Python source is shallowly embedded: prices and indicator values are
rationals, pandas NaN is `Option.none`, pandas Series become `List`s, and
the stateful detector/collector objects become explicit state records with
pure transition functions.  Every definition mirrors the corresponding
Python function; theorems settle the specification claims about them.
-/

namespace Trader2

attribute [local semireducible] Rat.add Rat.mul Rat.sub Rat.inv Rat.ofScientific

/-- NaN-aware strict less-than on optional values: any comparison against
NaN (`none`) is false, matching IEEE/pandas comparison semantics. -/
def optLt (a b : Option ℚ) : Bool :=
  match a, b with
  | some x, some y => decide (x < y)
  | _, _ => false

/-- NaN-aware strict less-than against a constant threshold. -/
def optLtc (a : Option ℚ) (c : ℚ) : Bool :=
  match a with
  | some x => decide (x < c)
  | none => false

/-- NaN-aware strict greater-than against a constant threshold. -/
def optGtc (a : Option ℚ) (c : ℚ) : Bool :=
  match a with
  | some x => decide (c < x)
  | none => false

/-! ## indicator_calculator.py -/

/-- `IndicatorCalculator.find_pivot_high(highs, index, lookback)`:
`False` when the symmetric window does not fit, otherwise `True` iff every
other value in `[index-lookback, index+lookback]` is strictly below
`highs[index]`. -/
def find_pivot_high (highs : List ℚ) (index : ℕ) (lookback : ℕ) : Bool :=
  if index < lookback ∨ highs.length ≤ index + lookback then false
  else
    let current := highs.getD index 0
    (List.range (2 * lookback + 1)).all fun o =>
      let j := index - lookback + o
      j == index || decide (highs.getD j 0 < current)

/-- `IndicatorCalculator.find_pivot_low(lows, index, lookback)`: symmetric
to `find_pivot_high`, with every other value strictly above `lows[index]`. -/
def find_pivot_low (lows : List ℚ) (index : ℕ) (lookback : ℕ) : Bool :=
  if index < lookback ∨ lows.length ≤ index + lookback then false
  else
    let current := lows.getD index 0
    (List.range (2 * lookback + 1)).all fun o =>
      let j := index - lookback + o
      j == index || decide (current < lows.getD j 0)


/-! ## indicator_calculator.py : RSI -/

/-- `close_prices.diff()`: leading NaN, then successive differences. -/
def deltaList (closes : List ℚ) : List (Option ℚ) :=
  match closes with
  | [] => []
  | _ :: tail => none :: (List.zipWith (fun a b => a - b) tail closes).map some

/-- `delta.where(delta > 0, 0)`: positive deltas, with NaN (and
non-positive values) replaced by 0. -/
def gainVals (closes : List ℚ) : List ℚ :=
  (deltaList closes).map fun d =>
    match d with
    | some x => if 0 < x then x else 0
    | none => 0

/-- `-delta.where(delta < 0, 0)`: magnitudes of negative deltas, with NaN
(and non-negative values) replaced by 0. -/
def lossVals (closes : List ℚ) : List ℚ :=
  (deltaList closes).map fun d =>
    match d with
    | some x => if x < 0 then -x else 0
    | none => 0

/-- `series.rolling(window=period).mean()`: trailing unweighted mean over
the last `period` entries, NaN while the window is not yet full. -/
def rollingMean (period : ℕ) (xs : List ℚ) : List (Option ℚ) :=
  (List.range xs.length).map fun j =>
    if j + 1 < period then none
    else some (((xs.take (j + 1)).drop (j + 1 - period)).sum / (period : ℚ))

/-- Rolling average gain used by `IndicatorCalculator.calculate_rsi`. -/
def rsiAvgGain (closes : List ℚ) (period : ℕ) : List (Option ℚ) :=
  rollingMean period (gainVals closes)

/-- Rolling average loss used by `IndicatorCalculator.calculate_rsi`. -/
def rsiAvgLoss (closes : List ℚ) (period : ℕ) : List (Option ℚ) :=
  rollingMean period (lossVals closes)

/-- `loss.replace(0, np.nan)`: exact zeros become NaN. -/
def replaceZeroNan (l : Option ℚ) : Option ℚ :=
  match l with
  | some x => if x = 0 then none else some x
  | none => none

/-- NaN-propagating division (the divisor is never a plain zero here:
zeros were replaced by NaN beforehand). -/
def optDiv (a b : Option ℚ) : Option ℚ :=
  match a, b with
  | some x, some y => some (x / y)
  | _, _ => none

/-- `IndicatorCalculator.calculate_rsi(close_prices, period)`:
`rs = gain / loss.replace(0, nan)` and `rsi = 100 - 100/(1 + rs)`, NaN
propagating through every step. -/
def calculate_rsi (closes : List ℚ) (period : ℕ) : List (Option ℚ) :=
  let rs := List.zipWith optDiv (rsiAvgGain closes period)
    ((rsiAvgLoss closes period).map replaceZeroNan)
  rs.map (Option.map fun x => 100 - 100 / (1 + x))

/-! ## signal_detector.py : data model -/

/-- One row of the augmented candle DataFrame handed to the detector.
`rsi` and `atr` have a NaN warm-up (rolling windows), so they are
optional; the price columns and the EMAs (seeded from the first close by
`ewm(adjust=False)`) are always defined. -/
structure AugCandle where
  time : ℤ
  high : ℚ
  low : ℚ
  close : ℚ
  rsi : Option ℚ
  atr : Option ℚ
  ema20 : ℚ
  ema50 : ℚ
  ema100 : ℚ
deriving DecidableEq

/-- Row lookup `df.iloc[i]` (only used at indices proved in range). -/
def rowAt (df : List AugCandle) (i : ℕ) : AugCandle :=
  df.getD i ⟨0, 0, 0, 0, none, none, 0, 0, 0⟩

/-- Pivot record stored in `SignalDetector.recent_pivots`. -/
inductive PivotType
  | high
  | low
deriving DecidableEq

/-- A pivot dict: evaluation index, type, extremum price, RSI, timestamp. -/
structure Pivot where
  index : ℕ
  type : PivotType
  price : ℚ
  rsi : Option ℚ
  time : ℤ
deriving DecidableEq

/-- Direction tag of an emitted signal. -/
inductive SignalType
  | bullish
  | bearish
deriving DecidableEq

/-- The signal dict returned by `SignalDetector.detect_signal`. -/
structure Signal where
  type : SignalType
  time : ℤ
  price : ℚ
  rsi : Option ℚ
  confidence : ℚ
  atr : Option ℚ
  bars_between : ℤ
deriving DecidableEq

/-- Mutable state of a `SignalDetector` instance. -/
structure DetectorState where
  recent_pivots : List Pivot
  last_signal_time : Option ℕ
deriving DecidableEq

/-- State of a freshly constructed `SignalDetector`. -/
def initialDetectorState : DetectorState := ⟨[], none⟩

/-- The configuration fields of `config.CONFIG` that the verified core
reads. -/
structure Config where
  MIN_CANDLES_REQUIRED : ℕ
  MIN_CONFIDENCE : ℚ
  PIVOT_LOOKBACK : ℕ
  MAX_LOOKBACK_BARS : ℕ
  RISK_PER_TRADE : ℚ
  STOP_MULTIPLIER : ℚ
  TARGET_1_RR : ℚ
  TARGET_2_RR : ℚ
  TARGET_3_RR : ℚ
deriving DecidableEq

/-- The values from `config.py`. -/
def CONFIG : Config :=
  { MIN_CANDLES_REQUIRED := 30
    MIN_CONFIDENCE := 0.40
    PIVOT_LOOKBACK := 3
    MAX_LOOKBACK_BARS := 50
    RISK_PER_TRADE := 0.10
    STOP_MULTIPLIER := 1.5
    TARGET_1_RR := 1.5
    TARGET_2_RR := 2.5
    TARGET_3_RR := 3.5 }

/-! ## signal_detector.py : confidence -/

/-- Trend Conviction Score block of `calculate_confidence`. -/
def tcsVal (ema20 ema50 ema100 : ℚ) : ℚ :=
  if (ema50 < ema20 ∧ ema100 < ema50) ∨ (ema20 < ema50 ∧ ema50 < ema100) then 0.4 else 0

/-- Exhaustion block of `calculate_confidence` (RSI band plus
close-to-EMA20 distance band). -/
def exhaustionVal (rsi distance : ℚ) : ℚ :=
  (if 75 < rsi ∨ rsi < 25 then 0.4 else if 70 < rsi ∨ rsi < 30 then 0.25 else 0)
    + (if 2.5 < distance then 0.3 else if 1.5 < distance then 0.2 else 0)

/-- RSI extreme bonus block of `calculate_confidence`. -/
def rsiBonusVal (rsi : ℚ) (is_bullish : Bool) : ℚ :=
  if is_bullish ∧ rsi < 30 then 0.25
  else if is_bullish ∧ rsi < 35 then 0.20
  else if ¬is_bullish ∧ 70 < rsi then 0.25
  else if ¬is_bullish ∧ 65 < rsi then 0.20
  else 0

/-- Pullback quality bonus block of `calculate_confidence`. -/
def pullbackVal (distance : ℚ) : ℚ :=
  if 0.3 < distance ∧ distance < 2.0 then 0.10 else 0

/-- DMA bonus block of `calculate_confidence`. -/
def dmaBonusVal (dma : ℚ) (is_bullish : Bool) : ℚ :=
  if is_bullish ∧ dma < 0 then 0.10
  else if ¬is_bullish ∧ 0 < dma then 0.10
  else 0

/-- Body of `calculate_confidence` once RSI and ATR are known to be
defined and ATR is nonzero. -/
def confCore (rsi atr close ema20 ema50 ema100 : ℚ) (is_bullish : Bool) : ℚ :=
  min (0.25 * (1 - tcsVal ema20 ema50 ema100)
      + 0.30 * exhaustionVal rsi (|close - ema20| / atr)
      + rsiBonusVal rsi is_bullish
      + pullbackVal (|close - ema20| / atr)
      + dmaBonusVal ((ema20 - ema50) / atr) is_bullish)
    1

/-- `SignalDetector.calculate_confidence(df, index, is_bullish)`: 0.0 on
an out-of-range index (the caught exception path) and on NaN RSI, NaN ATR
or zero ATR; otherwise the accumulated score clamped at 1. -/
def calculate_confidence (df : List AugCandle) (index : ℕ) (is_bullish : Bool) : ℚ :=
  match df[index]? with
  | none => 0
  | some c =>
    match c.rsi, c.atr with
    | some rsi, some atr =>
      if atr = 0 then 0
      else confCore rsi atr c.close c.ema20 c.ema50 c.ema100 is_bullish
    | _, _ => 0

/-! ## signal_detector.py : detect_signal -/

/-- `self.signal_cooldown_bars`, set to 10 in `SignalDetector.__init__`. -/
def signal_cooldown_bars : ℕ := 10

/-- The cooldown gate of `detect_signal`: Python's `if self.last_signal_time:`
is falsy both for `None` and for index 0, and the gate compares the
current series *length* against the stored candidate *index*. -/
def cooldownBlocked (s : DetectorState) (df : List AugCandle) : Bool :=
  match s.last_signal_time with
  | none => false
  | some k => !(k == 0) && decide ((df.length : ℤ) - (k : ℤ) < (signal_cooldown_bars : ℤ))

/-- Pivot construction step of `detect_signal`: evaluate both pivot flags
at the candidate index and build the pivot dict (high wins when both
flags are set). `none` when neither flag is set. -/
def mkPivot (cfg : Config) (df : List AugCandle) (i : ℕ) : Option Pivot :=
  let is_pivot_high := find_pivot_high (df.map (·.high)) i cfg.PIVOT_LOOKBACK
  let is_pivot_low := find_pivot_low (df.map (·.low)) i cfg.PIVOT_LOOKBACK
  if ¬is_pivot_high ∧ ¬is_pivot_low then none
  else some
    { index := i
      type := if is_pivot_high then PivotType.high else PivotType.low
      price := if is_pivot_high then (rowAt df i).high else (rowAt df i).low
      rsi := (rowAt df i).rsi
      time := (rowAt df i).time }

/-- The bullish divergence pattern test of `detect_signal` (candidate
versus one prior pivot), with NaN-false RSI comparisons. -/
def bullishTest (cand p : Pivot) : Bool :=
  (cand.type == PivotType.low) && decide (cand.price < p.price)
    && optLt p.rsi cand.rsi && optLtc cand.rsi 40

/-- The bearish divergence pattern test of `detect_signal`. -/
def bearishTest (cand p : Pivot) : Bool :=
  (cand.type == PivotType.high) && decide (p.price < cand.price)
    && optLt cand.rsi p.rsi && optGtc cand.rsi 60

/-- The divergence scan loop of `detect_signal` over the reversed pivot
window: skip pivots of the other type or with a bar gap below 8, return
a signal at the first pivot whose pattern test and confidence threshold
both pass, otherwise keep scanning earlier pivots. -/
def findSignal (cfg : Config) (df : List AugCandle) (cand : Pivot) :
    List Pivot → Option Signal
  | [] => none
  | p :: rest =>
    if !(p.type == cand.type) then findSignal cfg df cand rest
    else if decide ((cand.index : ℤ) - (p.index : ℤ) < 8) then findSignal cfg df cand rest
    else if bullishTest cand p then
      if decide (cfg.MIN_CONFIDENCE ≤ calculate_confidence df cand.index true) then
        some
          { type := SignalType.bullish
            time := cand.time
            price := cand.price
            rsi := cand.rsi
            confidence := calculate_confidence df cand.index true
            atr := (rowAt df cand.index).atr
            bars_between := (cand.index : ℤ) - (p.index : ℤ) }
      else findSignal cfg df cand rest
    else if bearishTest cand p then
      if decide (cfg.MIN_CONFIDENCE ≤ calculate_confidence df cand.index false) then
        some
          { type := SignalType.bearish
            time := cand.time
            price := cand.price
            rsi := cand.rsi
            confidence := calculate_confidence df cand.index false
            atr := (rowAt df cand.index).atr
            bars_between := (cand.index : ℤ) - (p.index : ℤ) }
      else findSignal cfg df cand rest
    else findSignal cfg df cand rest

/-- Full qualification of one prior pivot in the scan: same type, bar gap
at least 8, and a passing pattern test with sufficient confidence. -/
def winsAgainst (cfg : Config) (df : List AugCandle) (cand p : Pivot) : Bool :=
  (p.type == cand.type) && decide ((8 : ℤ) ≤ (cand.index : ℤ) - (p.index : ℤ))
    && ((bullishTest cand p
          && decide (cfg.MIN_CONFIDENCE ≤ calculate_confidence df cand.index true))
        || (!(bullishTest cand p) && bearishTest cand p
          && decide (cfg.MIN_CONFIDENCE ≤ calculate_confidence df cand.index false)))

/-- The signal built from the first fully qualifying prior pivot. -/
def mkMatchSignal (_cfg : Config) (df : List AugCandle) (cand p : Pivot) : Signal :=
  if bullishTest cand p then
    { type := SignalType.bullish
      time := cand.time
      price := cand.price
      rsi := cand.rsi
      confidence := calculate_confidence df cand.index true
      atr := (rowAt df cand.index).atr
      bars_between := (cand.index : ℤ) - (p.index : ℤ) }
  else
    { type := SignalType.bearish
      time := cand.time
      price := cand.price
      rsi := cand.rsi
      confidence := calculate_confidence df cand.index false
      atr := (rowAt df cand.index).atr
      bars_between := (cand.index : ℤ) - (p.index : ℤ) }

/-- The candidate (pivot-evaluation) index of a `detect_signal` call:
`len(df) − lookback − 1`. -/
def candidateIdx (cfg : Config) (df : List AugCandle) : ℕ :=
  ((df.length : ℤ) - (cfg.PIVOT_LOOKBACK : ℤ) - 1).toNat

/-- The pivot window after appending the candidate and pruning entries
older than `MAX_LOOKBACK_BARS` relative to the candidate index. -/
def prunedWindow (cfg : Config) (s : DetectorState) (df : List AugCandle)
    (cand : Pivot) : List Pivot :=
  (s.recent_pivots ++ [cand]).filter
    (fun p => decide (((candidateIdx cfg df : ℕ) : ℤ) - (p.index : ℤ)
      ≤ (cfg.MAX_LOOKBACK_BARS : ℤ)))

/-- `SignalDetector.detect_signal(df)` as a pure transition: takes the
detector state and the augmented series, returns the new state and the
optional signal. -/
def detect_signal (cfg : Config) (s : DetectorState) (df : List AugCandle) :
    DetectorState × Option Signal :=
  if df.length < 100 then (s, none)
  else if cooldownBlocked s df then (s, none)
  else if (df.length : ℤ) - (cfg.PIVOT_LOOKBACK : ℤ) - 1 < (cfg.PIVOT_LOOKBACK : ℤ) then
    (s, none)
  else
    match mkPivot cfg df (candidateIdx cfg df) with
    | none => (s, none)
    | some cand =>
      match findSignal cfg df cand ((prunedWindow cfg s df cand).dropLast.reverse) with
      | some sig => (⟨prunedWindow cfg s df cand, some (candidateIdx cfg df)⟩, some sig)
      | none => (⟨prunedWindow cfg s df cand, s.last_signal_time⟩, none)

/-! ## live_data_collector.py -/

/-- One incoming bar from the stream (`self.latest_bar_data`). -/
structure Tick where
  timestamp : ℤ
  «open» : ℚ
  high : ℚ
  low : ℚ
  close : ℚ
  volume : ℚ
deriving DecidableEq

/-- The in-progress candle (`self.current_candle`). -/
structure WorkingCandle where
  timestamp : ℤ
  «open» : ℚ
  high : ℚ
  low : ℚ
  close : ℚ
  volume : ℚ
  bars_in_candle : ℕ
deriving DecidableEq

/-- A completed candle appended to `self.candles`. -/
structure Candle where
  timestamp : ℤ
  «open» : ℚ
  high : ℚ
  low : ℚ
  close : ℚ
  volume : ℚ
deriving DecidableEq

/-- Aggregation state of a `LiveDataCollector`. -/
structure CollectorState where
  candles : List Candle
  current_candle : Option WorkingCandle
  candle_start : Option ℤ
deriving DecidableEq

/-- Fresh collector state. -/
def initialCollectorState : CollectorState := ⟨[], none, none⟩

/-- `self.interval = timedelta(minutes=5)`, with time measured in minutes. -/
def interval : ℤ := 5

/-- Python's `round(x, 6)`: round to the nearest integer multiple of
10⁻⁶, ties to even. -/
def roundHalfEven (x : ℚ) : ℤ :=
  let f := ⌊x⌋
  if x - (f : ℚ) < 1 / 2 then f
  else if (1 : ℚ) / 2 < x - (f : ℚ) then f + 1
  else if f % 2 = 0 then f
  else f + 1

/-- Round a rational to 6 decimal places, ties to even. -/
def round6 (x : ℚ) : ℚ := (roundHalfEven (x * 1000000) : ℚ) / 1000000

/-- The working candle seeded from a single bar. -/
def seedCandle (bar : Tick) : WorkingCandle :=
  ⟨bar.timestamp, bar.«open», bar.high, bar.low, bar.close, bar.volume, 1⟩

/-- Merging one more bar into the working candle. -/
def mergeBar (c : WorkingCandle) (bar : Tick) : WorkingCandle :=
  ⟨c.timestamp, c.«open», max c.high bar.high, min c.low bar.low, bar.close,
    c.volume + bar.volume, c.bars_in_candle + 1⟩

/-- `LiveDataCollector.process_minute_bar` for one incoming bar: seed the
working candle when empty, otherwise merge and close once the elapsed
time reaches the interval or the bar count reaches 5.  (`candle_start`
is always set together with `current_candle`; the `getD 0` default is
unreachable from the initial state.) -/
def process_minute_bar (s : CollectorState) (bar : Tick) : CollectorState :=
  match s.current_candle with
  | none =>
    { s with current_candle := some (seedCandle bar), candle_start := some bar.timestamp }
  | some c =>
    let merged := mergeBar c bar
    let cs := s.candle_start.getD 0
    if interval ≤ bar.timestamp - cs ∨ 5 ≤ merged.bars_in_candle then
      { candles := s.candles ++
          [⟨cs, merged.«open», merged.high, merged.low, merged.close, round6 merged.volume⟩]
        current_candle := some (seedCandle bar)
        candle_start := some bar.timestamp }
    else { s with current_candle := some merged }

/-- Feed a sequence of bars through the collector. -/
def ingestAll (s : CollectorState) (ts : List Tick) : CollectorState :=
  ts.foldl process_minute_bar s

/-! ## live_trader.py : position sizing -/

/-- Order side. -/
inductive Side
  | BUY
  | SELL
deriving DecidableEq

/-- The order-details dict built by
`IntegratedLiveTrader.calculate_order_details`. -/
structure OrderPlan where
  side : Side
  qty : ℚ
  entry : ℚ
  stop : ℚ
  target_1 : ℚ
  target_2 : ℚ
  target_3 : ℚ
  stop_distance : ℚ
  risk_dollars : ℚ
  potential_profit_t1 : ℚ
  potential_profit_t2 : ℚ
  potential_profit_t3 : ℚ
  account_balance : ℚ
  atr : ℚ
  stop_multiplier : ℚ
  is_bullish : Bool
deriving DecidableEq

/-- `IntegratedLiveTrader.calculate_order_details(signal, current_price)`:
the signal direction and ATR, the account equity and the current price
are the inputs; `none` is the discarded-signal path (`qty <= 0`). -/
def calculate_order_details (cfg : Config) (is_bullish : Bool) (atr : ℚ)
    (account_balance : ℚ) (current_price : ℚ) : Option OrderPlan :=
  let stop_multiplier := cfg.STOP_MULTIPLIER
  let risk_amount := account_balance * cfg.RISK_PER_TRADE
  let entry := current_price
  let stop := if is_bullish then entry - atr * stop_multiplier else entry + atr * stop_multiplier
  let target_1 := if is_bullish then entry + atr * stop_multiplier * cfg.TARGET_1_RR
    else entry - atr * stop_multiplier * cfg.TARGET_1_RR
  let target_2 := if is_bullish then entry + atr * stop_multiplier * cfg.TARGET_2_RR
    else entry - atr * stop_multiplier * cfg.TARGET_2_RR
  let target_3 := if is_bullish then entry + atr * stop_multiplier * cfg.TARGET_3_RR
    else entry - atr * stop_multiplier * cfg.TARGET_3_RR
  let stop_distance := |entry - stop|
  let qty := if 0 < stop_distance then round6 (risk_amount / stop_distance / entry) else 0
  if qty ≤ 0 then none
  else some
    { side := if is_bullish then Side.BUY else Side.SELL
      qty := qty
      entry := entry
      stop := stop
      target_1 := target_1
      target_2 := target_2
      target_3 := target_3
      stop_distance := stop_distance
      risk_dollars := qty * stop_distance
      potential_profit_t1 := qty * |target_1 - entry|
      potential_profit_t2 := qty * |target_2 - entry|
      potential_profit_t3 := qty * |target_3 - entry|
      account_balance := account_balance
      atr := atr
      stop_multiplier := stop_multiplier
      is_bullish := is_bullish }

/-! ## Concrete augmented series used as counterexample inputs -/

/-- Low prices for scenario A: pivot lows at indices 96, 104 and 110. -/
def lowA (i : ℕ) : ℚ :=
  if i = 96 then 90 else if i = 104 then 85 else if i = 110 then 80 else 100

/-- RSI values for scenario A. -/
def rsiA (i : ℕ) : ℚ :=
  if i = 96 then 10 else if i = 104 then 20 else if i = 110 then 20 else 50

/-- Augmented series for scenario A, truncated to the first `n` candles. -/
def dfA (n : ℕ) : List AugCandle :=
  (List.range n).map fun (i : ℕ) =>
    ⟨(i : ℤ), 200, lowA i, 130, some (rsiA i), some 10, 100, 100, 100⟩

/-- Low prices for scenario B: pivot lows at indices 96, 104 and 112,
where the pivot at 104 is lower than the one at 112. -/
def lowB (i : ℕ) : ℚ :=
  if i = 96 then 90 else if i = 104 then 70 else if i = 112 then 80 else 100

/-- RSI values for scenario B: the pivot at 104 has a lower RSI than the
one at 96, so the divergence test against it fails. -/
def rsiB (i : ℕ) : ℚ :=
  if i = 96 then 10 else if i = 104 then 5 else if i = 112 then 20 else 50

/-- Augmented series for scenario B, truncated to the first `n` candles. -/
def dfB (n : ℕ) : List AugCandle :=
  (List.range n).map fun (i : ℕ) =>
    ⟨(i : ℤ), 200, lowB i, 130, some (rsiB i), some 10, 100, 100, 100⟩

/-- The outcome of the divergence scan: the signal of the first pivot of
the reversed pruned window (candidate excluded) that fully qualifies. -/
def scanResult (cfg : Config) (s : DetectorState) (df : List AugCandle)
    (cand : Pivot) : Option Signal :=
  (((prunedWindow cfg s df cand).dropLast.reverse).find? (winsAgainst cfg df cand)).map
    (mkMatchSignal cfg df cand)

/-- Characterisation of `find_pivot_high` as the mathematical pivot-high
predicate. -/
lemma find_pivot_high_iff (highs : List ℚ) (index lookback : ℕ) :
    find_pivot_high highs index lookback = true ↔
      lookback ≤ index ∧ index + lookback + 1 ≤ highs.length ∧
        ∀ j, index - lookback ≤ j → j ≤ index + lookback → j ≠ index →
          highs.getD j 0 < highs.getD index 0 := by
  unfold find_pivot_high
  by_cases h : index < lookback ∨ highs.length ≤ index + lookback
  · rw [if_pos h]
    simp only [Bool.false_eq_true, false_iff, not_and]
    intro h1 h2
    exfalso
    omega
  · rw [if_neg h]
    push_neg at h
    obtain ⟨h1, h2⟩ := h
    simp only [List.all_eq_true, List.mem_range, Bool.or_eq_true, beq_iff_eq,
      decide_eq_true_eq]
    constructor
    · intro hall
      refine ⟨by omega, by omega, ?_⟩
      intro j hj1 hj2 hj3
      have ho : j - (index - lookback) < 2 * lookback + 1 := by omega
      have := hall (j - (index - lookback)) ho
      have hji : index - lookback + (j - (index - lookback)) = j := by omega
      rw [hji] at this
      rcases this with h' | h'
      · exact absurd h' hj3
      · exact h'
    · rintro ⟨-, -, hall⟩ o ho
      by_cases hj : index - lookback + o = index
      · exact Or.inl hj
      · exact Or.inr (hall _ (by omega) (by omega) hj)

/-- Characterisation of `find_pivot_low` as the mathematical pivot-low
predicate. -/
lemma find_pivot_low_iff (lows : List ℚ) (index lookback : ℕ) :
    find_pivot_low lows index lookback = true ↔
      lookback ≤ index ∧ index + lookback + 1 ≤ lows.length ∧
        ∀ j, index - lookback ≤ j → j ≤ index + lookback → j ≠ index →
          lows.getD index 0 < lows.getD j 0 := by
  unfold find_pivot_low
  by_cases h : index < lookback ∨ lows.length ≤ index + lookback
  · rw [if_pos h]
    simp only [Bool.false_eq_true, false_iff, not_and]
    intro h1 h2
    exfalso
    omega
  · rw [if_neg h]
    push_neg at h
    obtain ⟨h1, h2⟩ := h
    simp only [List.all_eq_true, List.mem_range, Bool.or_eq_true, beq_iff_eq,
      decide_eq_true_eq]
    constructor
    · intro hall
      refine ⟨by omega, by omega, ?_⟩
      intro j hj1 hj2 hj3
      have ho : j - (index - lookback) < 2 * lookback + 1 := by omega
      have := hall (j - (index - lookback)) ho
      have hji : index - lookback + (j - (index - lookback)) = j := by omega
      rw [hji] at this
      rcases this with h' | h'
      · exact absurd h' hj3
      · exact h'
    · rintro ⟨-, -, hall⟩ o ho
      by_cases hj : index - lookback + o = index
      · exact Or.inl hj
      · exact Or.inr (hall _ (by omega) (by omega) hj)


/-- Each confidence component is non-negative and the leading trend term
is at most 1/4; together the clamp keeps the score inside `[0, 1]`. -/
lemma confCore_bounds (rsi atr close ema20 ema50 ema100 : ℚ) (b : Bool) :
    0 ≤ confCore rsi atr close ema20 ema50 ema100 b ∧
      confCore rsi atr close ema20 ema50 ema100 b ≤ 1 := by
  unfold confCore
  constructor
  · refine le_min ?_ (by norm_num)
    have h1 : 0 ≤ 0.25 * (1 - tcsVal ema20 ema50 ema100) := by
      unfold tcsVal
      split_ifs <;> norm_num
    have h2 : 0 ≤ exhaustionVal rsi (|close - ema20| / atr) := by
      unfold exhaustionVal
      split_ifs <;> norm_num
    have h3 : 0 ≤ rsiBonusVal rsi b := by
      unfold rsiBonusVal
      split_ifs <;> norm_num
    have h4 : 0 ≤ pullbackVal (|close - ema20| / atr) := by
      unfold pullbackVal
      split_ifs <;> norm_num
    have h5 : 0 ≤ dmaBonusVal ((ema20 - ema50) / atr) b := by
      unfold dmaBonusVal
      split_ifs <;> norm_num
    linarith
  · exact min_le_right _ _

/-- C3: the confidence score always lies in `[0, 1]`, and it is exactly 0
whenever the RSI or the ATR at the evaluated index is NaN or the ATR is
zero, whatever the remaining inputs. -/
theorem confidence_bounds_and_degenerate (df : List AugCandle) (index : ℕ)
    (is_bullish : Bool) :
    (0 ≤ calculate_confidence df index is_bullish ∧
      calculate_confidence df index is_bullish ≤ 1) ∧
      ∀ c, df[index]? = some c →
        c.rsi = none ∨ c.atr = none ∨ c.atr = some 0 →
        calculate_confidence df index is_bullish = 0 := by
  constructor
  · rcases hc : df[index]? with _ | c
    · norm_num [calculate_confidence, hc]
    · rcases hr : c.rsi with _ | rsi
      · norm_num [calculate_confidence, hc, hr]
      · rcases ha : c.atr with _ | atr
        · norm_num [calculate_confidence, hc, hr, ha]
        · by_cases h0 : atr = 0
          · norm_num [calculate_confidence, hc, hr, ha, h0]
          · simp only [calculate_confidence, hc, hr, ha]
            rw [if_neg h0]
            exact confCore_bounds rsi atr c.close c.ema20 c.ema50 c.ema100 is_bullish
  · intro c hc hdeg
    rcases hdeg with h | h | h
    · simp [calculate_confidence, hc, h]
    · rcases hr : c.rsi with _ | rsi
      · simp [calculate_confidence, hc, hr]
      · simp [calculate_confidence, hc, hr, h]
    · rcases hr : c.rsi with _ | rsi
      · simp [calculate_confidence, hc, hr]
      · simp [calculate_confidence, hc, hr, h]

/-- Element access into the reversed, negated copy of a series. -/
lemma getD_neg_reverse (s : List ℚ) (j : ℕ) (h : j < s.length) :
    ((s.map fun x => -x).reverse).getD j 0 = -(s.getD (s.length - 1 - j) 0) := by
  have hlen : ((s.map fun x => -x).reverse).length = s.length := by simp
  rw [List.getD_eq_getElem _ _ (by omega : j < ((s.map fun x => -x).reverse).length)]
  rw [List.getD_eq_getElem _ _ (by omega : s.length - 1 - j < s.length)]
  rw [List.getElem_reverse]
  rw [List.getElem_map]
  congr 2
  simp only [List.length_map]

/-- C7: `find_pivot_high(highs, i, L)` is true exactly when the symmetric
window fits (`L ≤ i` and `i ≤ len − L − 1`) and every other index in
`[i−L, i+L]` carries a strictly smaller high; `find_pivot_low` is the
strict mirror on lows.  In particular neither flag ever holds within `L`
of either end of the series. -/
theorem pivot_flags_iff (highs lows : List ℚ) (index lookback : ℕ) :
    (find_pivot_high highs index lookback = true ↔
      lookback ≤ index ∧ index + lookback + 1 ≤ highs.length ∧
        ∀ j, index - lookback ≤ j → j ≤ index + lookback → j ≠ index →
          highs.getD j 0 < highs.getD index 0) ∧
    (find_pivot_low lows index lookback = true ↔
      lookback ≤ index ∧ index + lookback + 1 ≤ lows.length ∧
        ∀ j, index - lookback ≤ j → j ≤ index + lookback → j ≠ index →
          lows.getD index 0 < lows.getD j 0) :=
  ⟨find_pivot_high_iff highs index lookback, find_pivot_low_iff lows index lookback⟩

/-- Concrete instantiation of `pivot_flags_iff`: the window conditions
extracted from a decided pivot-high flag at index 2 of a 5-element list. -/
theorem pivot_flags_iff_witness :
    2 ≤ 2 ∧ 2 + 2 + 1 ≤ [(0 : ℚ), 1, 5, 1, 0].length ∧
      ∀ j, 2 - 2 ≤ j → j ≤ 2 + 2 → j ≠ 2 →
        [(0 : ℚ), 1, 5, 1, 0].getD j 0 < [(0 : ℚ), 1, 5, 1, 0].getD 2 0 :=
  (pivot_flags_iff [0, 1, 5, 1, 0] [5, 1, 0, 1, 5] 2 2).1.mp (by decide)

/-- C9 counterexample: reversing and negating the series
`[0, 1, 2, 5, 2, 1, 0, 3]` does not turn its pivot-high at index 3 into a
pivot-low at the same index 3 (the pivot-low appears at the mirrored
index 4 instead). -/
theorem pivot_duality_counterexample :
    find_pivot_high [0, 1, 2, 5, 2, 1, 0, 3] 3 3 = true ∧
      (([(0 : ℚ), 1, 2, 5, 2, 1, 0, 3].map fun x => -x).reverse =
        [-3, 0, -1, -2, -5, -2, -1, 0]) ∧
      find_pivot_low [-3, 0, -1, -2, -5, -2, -1, 0] 3 3 = false ∧
      find_pivot_low [-3, 0, -1, -2, -5, -2, -1, 0] 4 3 = true := by
  refine ⟨by decide, by decide, by decide, by decide⟩

/-- C9 amended: reversing and negating a series turns the pivot-high flag
at index `i` into the pivot-low flag at the mirrored index
`length − 1 − i`, for every in-range index. -/
theorem pivot_duality_mirrored (s : List ℚ) (i lookback : ℕ) (h : i < s.length) :
    find_pivot_high s i lookback =
      find_pivot_low ((s.map fun x => -x).reverse) (s.length - 1 - i) lookback := by
  have hlen : ((s.map fun x => -x).reverse).length = s.length := by simp
  rw [Bool.eq_iff_iff, find_pivot_high_iff, find_pivot_low_iff, hlen]
  constructor
  · rintro ⟨h1, h2, h3⟩
    refine ⟨by omega, by omega, ?_⟩
    intro j hj1 hj2 hj3
    have hj4 : j < s.length := by omega
    have hi4 : s.length - 1 - i < s.length := by omega
    rw [getD_neg_reverse s j hj4, getD_neg_reverse s (s.length - 1 - i) hi4]
    have hii : s.length - 1 - (s.length - 1 - i) = i := by omega
    rw [hii]
    have := h3 (s.length - 1 - j) (by omega) (by omega) (by omega)
    exact neg_lt_neg_iff.mpr this
  · rintro ⟨h1, h2, h3⟩
    refine ⟨by omega, by omega, ?_⟩
    intro j hj1 hj2 hj3
    have hj4 : s.length - 1 - j < s.length := by omega
    have hi4 : s.length - 1 - i < s.length := by omega
    have := h3 (s.length - 1 - j) (by omega) (by omega) (by omega)
    rw [getD_neg_reverse s (s.length - 1 - j) hj4, getD_neg_reverse s (s.length - 1 - i) hi4]
      at this
    have hii : s.length - 1 - (s.length - 1 - i) = i := by omega
    have hjj : s.length - 1 - (s.length - 1 - j) = j := by omega
    rw [hii, hjj] at this
    exact neg_lt_neg_iff.mp this

/-- Concrete instantiation of `pivot_duality_mirrored` at the series of
the counterexample, index 3. -/
theorem pivot_duality_mirrored_witness :
    find_pivot_high [0, 1, 2, 5, 2, 1, 0, 3] 3 3 =
      find_pivot_low (([(0 : ℚ), 1, 2, 5, 2, 1, 0, 3].map fun x => -x).reverse)
        ([(0 : ℚ), 1, 2, 5, 2, 1, 0, 3].length - 1 - 3) 3 :=
  pivot_duality_mirrored [0, 1, 2, 5, 2, 1, 0, 3] 3 3 (by decide)

/-- C10: any series shorter than 100 candles is rejected immediately by
`detect_signal`, with the detector state returned untouched, for every
configuration — in particular the configured `MIN_CANDLES_REQUIRED` of 30
does not govern this gate. -/
theorem detect_signal_short_series :
    CONFIG.MIN_CANDLES_REQUIRED = 30 ∧
      ∀ (cfg : Config) (s : DetectorState) (df : List AugCandle),
        df.length < 100 → detect_signal cfg s df = (s, none) := by
  refine ⟨rfl, ?_⟩
  intro cfg s df h
  unfold detect_signal
  rw [if_pos h]

/-- Concrete instantiation of `detect_signal_short_series` on a series of
exactly `MIN_CANDLES_REQUIRED = 30` candles. -/
theorem detect_signal_short_series_witness :
    detect_signal CONFIG initialDetectorState (dfA 30) = (initialDetectorState, none) :=
  detect_signal_short_series.2 CONFIG initialDetectorState (dfA 30) (by decide)

/-- Concrete instantiation of `confidence_bounds_and_degenerate` at a row
whose ATR is zero. -/
theorem confidence_bounds_and_degenerate_witness :
    (0 ≤ calculate_confidence [⟨0, 1, 1, 1, some 50, some 0, 1, 1, 1⟩] 0 true ∧
      calculate_confidence [⟨0, 1, 1, 1, some 50, some 0, 1, 1, 1⟩] 0 true ≤ 1) ∧
      calculate_confidence [⟨0, 1, 1, 1, some 50, some 0, 1, 1, 1⟩] 0 true = 0 :=
  ⟨(confidence_bounds_and_degenerate [⟨0, 1, 1, 1, some 50, some 0, 1, 1, 1⟩] 0 true).1,
    (confidence_bounds_and_degenerate [⟨0, 1, 1, 1, some 50, some 0, 1, 1, 1⟩] 0 true).2
      ⟨0, 1, 1, 1, some 50, some 0, 1, 1, 1⟩ (by rfl) (Or.inr (Or.inr rfl))⟩

/-- C8: `calculate_rsi` is `100 − 100/(1 + avg_gain/avg_loss)` over the
trailing unweighted rolling means, and every index whose rolling average
loss is exactly zero yields NaN, never a substituted 100. -/
theorem rsi_zero_loss_nan (closes : List ℚ) (period j : ℕ) :
    ((rsiAvgLoss closes period)[j]? = some (some 0) →
      (calculate_rsi closes period)[j]? = some none) ∧
    ∀ g l, (rsiAvgGain closes period)[j]? = some (some g) →
      (rsiAvgLoss closes period)[j]? = some (some l) → l ≠ 0 →
      (calculate_rsi closes period)[j]? = some (some (100 - 100 / (1 + g / l))) := by
  have hlen : (rsiAvgGain closes period).length = (rsiAvgLoss closes period).length := by
    simp [rsiAvgGain, rsiAvgLoss, rollingMean, gainVals, lossVals]
  constructor
  · intro h
    have hjl : j < (rsiAvgLoss closes period).length :=
      (List.getElem?_eq_some_iff.mp h).1
    obtain ⟨g, hgj⟩ : ∃ g, (rsiAvgGain closes period)[j]? = some g :=
      ⟨_, List.getElem?_eq_getElem (by omega)⟩
    unfold calculate_rsi
    rw [List.getElem?_map, List.getElem?_zipWith, List.getElem?_map, h, hgj]
    cases g <;> simp [replaceZeroNan, optDiv]
  · intro g l hgj hlj hl
    unfold calculate_rsi
    rw [List.getElem?_map, List.getElem?_zipWith, List.getElem?_map, hlj, hgj]
    simp [replaceZeroNan, optDiv, hl]

/-- Concrete instantiations of `rsi_zero_loss_nan`: a flat series gives a
zero rolling loss and hence NaN RSI, and a moving series realises the
explicit formula. -/
theorem rsi_zero_loss_nan_witness :
    (calculate_rsi [5, 5, 5] 2)[2]? = some none ∧
      (calculate_rsi [5, 4, 6] 2)[2]? = some (some (100 - 100 / (1 + 1 / (1 / 2)))) :=
  ⟨(rsi_zero_loss_nan [5, 5, 5] 2 2).1 (by decide),
    (rsi_zero_loss_nan [5, 4, 6] 2 2).2 1 (1 / 2) (by decide) (by decide) (by norm_num)⟩

/-- C4: for non-negative ATR and stop multiplier the sizer uses
`stop_distance = ATR × stop_multiplier` and
`quantity = round₆((equity × risk_fraction / stop_distance) / entry)`,
and it returns an OrderPlan exactly when the stop distance is positive
and the rounded quantity is positive. -/
theorem order_details_spec (cfg : Config) (is_bullish : Bool) (atr equity price : ℚ)
    (hatr : 0 ≤ atr) (hsm : 0 ≤ cfg.STOP_MULTIPLIER) :
    ((calculate_order_details cfg is_bullish atr equity price).isSome = true ↔
      0 < atr * cfg.STOP_MULTIPLIER ∧
        0 < round6 (equity * cfg.RISK_PER_TRADE / (atr * cfg.STOP_MULTIPLIER) / price)) ∧
    ∀ plan, calculate_order_details cfg is_bullish atr equity price = some plan →
      plan.stop_distance = atr * cfg.STOP_MULTIPLIER ∧
      plan.qty = round6 (equity * cfg.RISK_PER_TRADE / (atr * cfg.STOP_MULTIPLIER) / price) := by
  have hsd : 0 ≤ atr * cfg.STOP_MULTIPLIER := mul_nonneg hatr hsm
  have habs : |price - (if is_bullish then price - atr * cfg.STOP_MULTIPLIER
      else price + atr * cfg.STOP_MULTIPLIER)| = atr * cfg.STOP_MULTIPLIER := by
    cases is_bullish
    · rw [if_neg (by simp), sub_add_cancel_left, abs_neg, abs_of_nonneg hsd]
    · rw [if_pos (by simp), sub_sub_cancel, abs_of_nonneg hsd]
  simp only [calculate_order_details, habs]
  by_cases hpos : 0 < atr * cfg.STOP_MULTIPLIER
  · rw [if_pos hpos]
    by_cases hq : round6 (equity * cfg.RISK_PER_TRADE / (atr * cfg.STOP_MULTIPLIER) / price) ≤ 0
    · rw [if_pos hq]
      constructor
      · simp only [Option.isSome_none, Bool.false_eq_true, false_iff, not_and]
        intro
        exact not_lt.mpr hq
      · intro plan hplan
        exact absurd hplan (by simp)
    · rw [if_neg hq]
      constructor
      · simp only [Option.isSome_some, true_iff]
        exact ⟨hpos, lt_of_not_le hq⟩
      · intro plan hplan
        cases Option.some.inj hplan
        exact ⟨rfl, rfl⟩
  · rw [if_neg hpos]
    rw [if_pos le_rfl]
    constructor
    · simp only [Option.isSome_none, Bool.false_eq_true, false_iff, not_and]
      intro h
      exact absurd h hpos
    · intro plan hplan
      exact absurd hplan (by simp)

/-- Concrete instantiation of `order_details_spec` at the worked example:
equity 10000, risk 0.10, ATR 50, stop multiplier 1.5, entry 30000, where
the rounded quantity is 0.000444. -/
theorem order_details_spec_witness :
    (((calculate_order_details CONFIG true 50 10000 30000).isSome = true ↔
      0 < (50 : ℚ) * CONFIG.STOP_MULTIPLIER ∧
        0 < round6 (10000 * CONFIG.RISK_PER_TRADE / (50 * CONFIG.STOP_MULTIPLIER) / 30000)) ∧
    ∀ plan, calculate_order_details CONFIG true 50 10000 30000 = some plan →
      plan.stop_distance = 50 * CONFIG.STOP_MULTIPLIER ∧
      plan.qty = round6 (10000 * CONFIG.RISK_PER_TRADE / (50 * CONFIG.STOP_MULTIPLIER) / 30000)) ∧
    round6 (10000 * CONFIG.RISK_PER_TRADE / (50 * CONFIG.STOP_MULTIPLIER) / 30000)
      = 111 / 250000 :=
  ⟨order_details_spec CONFIG true 50 10000 30000 (by norm_num) (by decide), by decide⟩

/-- A bar that neither reaches the interval nor the 5-bar cap only merges
into the working candle. -/
lemma process_no_close (cands : List Candle) (w : WorkingCandle) (cs : ℤ) (t : Tick)
    (h1 : t.timestamp - cs < interval) (h2 : (mergeBar w t).bars_in_candle < 5) :
    process_minute_bar ⟨cands, some w, some cs⟩ t = ⟨cands, some (mergeBar w t), some cs⟩ := by
  unfold process_minute_bar
  simp only [Option.getD_some]
  rw [if_neg]
  push_neg
  exact ⟨h1, by omega⟩

/-- A bar whose timestamp has advanced a full interval closes the working
candle (with volume rounded to 6 decimals) and reseeds from that bar. -/
lemma process_close (cands : List Candle) (w : WorkingCandle) (cs : ℤ) (t : Tick)
    (h1 : interval ≤ t.timestamp - cs) :
    process_minute_bar ⟨cands, some w, some cs⟩ t =
      ⟨cands ++ [⟨cs, (mergeBar w t).«open», (mergeBar w t).high, (mergeBar w t).low,
          (mergeBar w t).close, round6 (mergeBar w t).volume⟩],
        some (seedCandle t), some t.timestamp⟩ := by
  unfold process_minute_bar
  simp only [Option.getD_some]
  rw [if_pos (Or.inl h1)]

/-- Accumulation invariant: while no bar closes the candle, folding the
collector equals folding `mergeBar` on the working candle. -/
lemma ingestAll_accumulate (mid : List Tick) (cands : List Candle) (w : WorkingCandle)
    (cs : ℤ) (hts : ∀ t ∈ mid, t.timestamp - cs < interval)
    (hcount : w.bars_in_candle + mid.length < 5) :
    ingestAll ⟨cands, some w, some cs⟩ mid = ⟨cands, some (mid.foldl mergeBar w), some cs⟩ := by
  induction mid generalizing w with
  | nil => rfl
  | cons t rest ih =>
    have h1 : t.timestamp - cs < interval := hts t (List.mem_cons_self t rest)
    have h2 : (mergeBar w t).bars_in_candle < 5 := by
      simp only [mergeBar]
      simp only [List.length_cons] at hcount
      omega
    show ingestAll (process_minute_bar ⟨cands, some w, some cs⟩ t) rest = _
    rw [process_no_close cands w cs t h1 h2]
    rw [ih (mergeBar w t) (fun u hu => hts u (List.mem_cons_of_mem t hu))
      (by simp only [mergeBar]; simp only [List.length_cons] at hcount; omega)]
    rfl

/-- The merged working candle keeps the seed's open price. -/
lemma foldl_mergeBar_open (l : List Tick) (w : WorkingCandle) :
    (l.foldl mergeBar w).«open» = w.«open» := by
  induction l generalizing w with
  | nil => rfl
  | cons t rest ih =>
    rw [List.foldl_cons, ih (mergeBar w t)]
    rfl

/-- The merged working candle's high is the running maximum of bar highs. -/
lemma foldl_mergeBar_high (l : List Tick) (w : WorkingCandle) :
    (l.foldl mergeBar w).high = l.foldl (fun a t => max a t.high) w.high := by
  induction l generalizing w with
  | nil => rfl
  | cons t rest ih =>
    rw [List.foldl_cons, ih (mergeBar w t), List.foldl_cons]
    rfl

/-- The merged working candle's low is the running minimum of bar lows. -/
lemma foldl_mergeBar_low (l : List Tick) (w : WorkingCandle) :
    (l.foldl mergeBar w).low = l.foldl (fun a t => min a t.low) w.low := by
  induction l generalizing w with
  | nil => rfl
  | cons t rest ih =>
    rw [List.foldl_cons, ih (mergeBar w t), List.foldl_cons]
    rfl

/-- The merged working candle's volume is the running sum of bar volumes. -/
lemma foldl_mergeBar_volume (l : List Tick) (w : WorkingCandle) :
    (l.foldl mergeBar w).volume = l.foldl (fun a t => a + t.volume) w.volume := by
  induction l generalizing w with
  | nil => rfl
  | cons t rest ih =>
    rw [List.foldl_cons, ih (mergeBar w t), List.foldl_cons]
    rfl

/-- C5 amended: a tick sequence of at most 5 bars whose interior stays
strictly inside the interval and whose last bar lands exactly one
interval after the first produces exactly one completed candle, with
high the maximum of all tick highs, low the minimum of all tick lows,
open the first tick's open, close the last tick's close, and volume the
sum of tick volumes rounded to 6 decimal places. -/
theorem candle_aggregation_spec (t0 tl : Tick) (mid : List Tick)
    (hn : mid.length + 2 ≤ 5)
    (hmid : ∀ t ∈ mid, t.timestamp - t0.timestamp < interval)
    (hlast : tl.timestamp - t0.timestamp = interval) :
    ingestAll initialCollectorState (t0 :: mid ++ [tl]) =
      ⟨[⟨t0.timestamp, t0.«open»,
          (mid ++ [tl]).foldl (fun a t => max a t.high) t0.high,
          (mid ++ [tl]).foldl (fun a t => min a t.low) t0.low,
          tl.close,
          round6 ((mid ++ [tl]).foldl (fun a t => a + t.volume) t0.volume)⟩],
        some (seedCandle tl), some tl.timestamp⟩ := by
  have hstep : ingestAll initialCollectorState (t0 :: mid ++ [tl]) =
      ingestAll ⟨[], some (seedCandle t0), some t0.timestamp⟩ (mid ++ [tl]) := rfl
  have hsplit : ingestAll ⟨[], some (seedCandle t0), some t0.timestamp⟩ (mid ++ [tl]) =
      ingestAll (ingestAll ⟨[], some (seedCandle t0), some t0.timestamp⟩ mid) [tl] := by
    simp [ingestAll, List.foldl_append]
  rw [hstep, hsplit,
    ingestAll_accumulate mid [] (seedCandle t0) t0.timestamp hmid
      (by simp only [seedCandle]; omega)]
  have hfin : ingestAll ⟨[], some (mid.foldl mergeBar (seedCandle t0)), some t0.timestamp⟩ [tl] =
      process_minute_bar ⟨[], some (mid.foldl mergeBar (seedCandle t0)), some t0.timestamp⟩ tl :=
    rfl
  rw [hfin, process_close [] (mid.foldl mergeBar (seedCandle t0)) t0.timestamp tl
    (le_of_eq hlast.symm)]
  have hW := mid.foldl mergeBar (seedCandle t0)
  congr 1
  have hopen : (mergeBar (mid.foldl mergeBar (seedCandle t0)) tl).«open» = t0.«open» := by
    simp only [mergeBar]
    rw [foldl_mergeBar_open]
    rfl
  have hhigh : (mergeBar (mid.foldl mergeBar (seedCandle t0)) tl).high =
      (mid ++ [tl]).foldl (fun a t => max a t.high) t0.high := by
    simp only [mergeBar, List.foldl_append, List.foldl_cons, List.foldl_nil]
    rw [foldl_mergeBar_high]
    rfl
  have hlow : (mergeBar (mid.foldl mergeBar (seedCandle t0)) tl).low =
      (mid ++ [tl]).foldl (fun a t => min a t.low) t0.low := by
    simp only [mergeBar, List.foldl_append, List.foldl_cons, List.foldl_nil]
    rw [foldl_mergeBar_low]
    rfl
  have hvol : (mergeBar (mid.foldl mergeBar (seedCandle t0)) tl).volume =
      (mid ++ [tl]).foldl (fun a t => a + t.volume) t0.volume := by
    simp only [mergeBar, List.foldl_append, List.foldl_cons, List.foldl_nil]
    rw [foldl_mergeBar_volume]
    rfl
  rw [hopen, hhigh, hlow, hvol]
  rfl

/-- Concrete instantiation of `candle_aggregation_spec` on two ticks five
minutes apart. -/
theorem candle_aggregation_spec_witness :
    ingestAll initialCollectorState
        ((⟨0, 10, 12, 9, 11, 1⟩ : Tick) :: [] ++ [(⟨5, 11, 13, 8, 10, 2⟩ : Tick)]) =
      ⟨[⟨(0 : ℤ), 10,
          ([] ++ [(⟨5, 11, 13, 8, 10, 2⟩ : Tick)]).foldl (fun (a : ℚ) (t : Tick) => max a t.high) 12,
          ([] ++ [(⟨5, 11, 13, 8, 10, 2⟩ : Tick)]).foldl (fun (a : ℚ) (t : Tick) => min a t.low) 9,
          10,
          round6 (([] ++ [(⟨5, 11, 13, 8, 10, 2⟩ : Tick)]).foldl
            (fun (a : ℚ) (t : Tick) => a + t.volume) 1)⟩],
        some (seedCandle ⟨5, 11, 13, 8, 10, 2⟩), some 5⟩ :=
  candle_aggregation_spec ⟨0, 10, 12, 9, 11, 1⟩ ⟨5, 11, 13, 8, 10, 2⟩ []
    (by norm_num) (by simp) (by decide)

/-- C5 counterexample: two ticks of volume 0.0000004 each, five minutes
apart, close into a candle whose stored volume is the rounded 0.000001,
not the exact sum 0.0000008. -/
theorem candle_volume_counterexample :
    (ingestAll initialCollectorState
        [⟨0, 1, 4, 0, 2, 2 / 5000000⟩, ⟨5, 3, 6, 1, 4, 2 / 5000000⟩]).candles.map
          (fun c => c.volume) = [1 / 1000000] ∧
      (2 / 5000000 : ℚ) + 2 / 5000000 = 1 / 1250000 ∧
      (1 / 1000000 : ℚ) ≠ 1 / 1250000 :=
  ⟨by decide, by decide, by decide⟩

/-- C6 amended: the first bar seen by an empty aggregator seeds the
working candle with the bar's own open, high, low and close (not
open = high = low = close = bar.close), its volume, a count of 1, and the
bar's timestamp as period start. -/
theorem seed_candle_spec (cands : List Candle) (st : Option ℤ) (bar : Tick) :
    process_minute_bar ⟨cands, none, st⟩ bar =
      ⟨cands, some ⟨bar.timestamp, bar.«open», bar.high, bar.low, bar.close, bar.volume, 1⟩,
        some bar.timestamp⟩ := rfl

/-- C6 counterexample: a first bar with open 1, high 4, low 0, close 2
seeds the working candle as `⟨0, 1, 4, 0, 2, 5, 1⟩`, not with all four
price fields equal to the close 2. -/
theorem seed_candle_counterexample :
    (process_minute_bar initialCollectorState ⟨0, 1, 4, 0, 2, 5⟩).current_candle =
        some ⟨0, 1, 4, 0, 2, 5, 1⟩ ∧
      (process_minute_bar initialCollectorState ⟨0, 1, 4, 0, 2, 5⟩).current_candle ≠
        some ⟨0, 2, 2, 2, 2, 5, 1⟩ :=
  ⟨by decide, by decide⟩

/-- The scan loop returns exactly the signal built from the first pivot
in scan order that fully qualifies (type, gap, pattern and confidence). -/
lemma findSignal_eq_find (cfg : Config) (df : List AugCandle) (cand : Pivot)
    (l : List Pivot) :
    findSignal cfg df cand l =
      (l.find? (winsAgainst cfg df cand)).map (mkMatchSignal cfg df cand) := by
  induction l with
  | nil => rfl
  | cons p rest ih =>
    rw [List.find?_cons]
    cases htype : p.type == cand.type with
    | false =>
      have hw : winsAgainst cfg df cand p = false := by
        simp [winsAgainst, htype]
      rw [hw]
      simp only [findSignal, htype, Bool.not_false, if_true]
      exact ih
    | true =>
      cases hlt : decide ((cand.index : ℤ) - (p.index : ℤ) < 8) with
      | true =>
        have h8 : decide ((8 : ℤ) ≤ (cand.index : ℤ) - (p.index : ℤ)) = false := by
          simp only [decide_eq_true_eq] at hlt
          simp only [decide_eq_false_iff_not]
          omega
        have hw : winsAgainst cfg df cand p = false := by
          simp [winsAgainst, h8]
        rw [hw]
        simp only [findSignal, htype, Bool.not_true, Bool.false_eq_true, if_false, hlt, if_true]
        exact ih
      | false =>
        have h8 : decide ((8 : ℤ) ≤ (cand.index : ℤ) - (p.index : ℤ)) = true := by
          simp only [decide_eq_false_iff_not] at hlt
          simp only [decide_eq_true_eq]
          omega
        cases hbull : bullishTest cand p with
        | true =>
          cases hconf : decide (cfg.MIN_CONFIDENCE ≤ calculate_confidence df cand.index true) with
          | true =>
            have hw : winsAgainst cfg df cand p = true := by
              simp [winsAgainst, htype, h8, hbull, hconf]
            rw [hw]
            simp only [findSignal, htype, Bool.not_true, Bool.false_eq_true, if_false, hlt,
              hbull, if_true, hconf]
            simp [mkMatchSignal, hbull]
          | false =>
            have hw : winsAgainst cfg df cand p = false := by
              simp [winsAgainst, hbull, hconf]
            rw [hw]
            simp only [findSignal, htype, Bool.not_true, Bool.false_eq_true, if_false, hlt,
              hbull, if_true, hconf]
            exact ih
        | false =>
          cases hbear : bearishTest cand p with
          | true =>
            cases hconf : decide
                (cfg.MIN_CONFIDENCE ≤ calculate_confidence df cand.index false) with
            | true =>
              have hw : winsAgainst cfg df cand p = true := by
                simp [winsAgainst, htype, h8, hbull, hbear, hconf]
              rw [hw]
              simp only [findSignal, htype, Bool.not_true, Bool.false_eq_true, if_false, hlt,
                hbull, hbear, if_true, hconf]
              simp [mkMatchSignal, hbull]
            | false =>
              have hw : winsAgainst cfg df cand p = false := by
                simp [winsAgainst, hbull, hbear, hconf]
              rw [hw]
              simp only [findSignal, htype, Bool.not_true, Bool.false_eq_true, if_false, hlt,
                hbull, hbear, if_true, hconf]
              exact ih
          | false =>
            have hw : winsAgainst cfg df cand p = false := by
              simp [winsAgainst, hbull, hbear]
            rw [hw]
            simp only [findSignal, htype, Bool.not_true, Bool.false_eq_true, if_false, hlt,
              hbull, hbear, if_true]
            exact ih

/-- The pivot built by `mkPivot cfg df i` carries index `i`. -/
lemma mkPivot_index (cfg : Config) (df : List AugCandle) (i : ℕ) (cand : Pivot)
    (h : mkPivot cfg df i = some cand) : cand.index = i := by
  simp only [mkPivot] at h
  split at h
  · exact absurd h (by simp)
  · cases Option.some.inj h
    rfl

/-- C1 counterexample: a signal is emitted at candidate index 104
(series length 108), and the very next evaluated candidate, index 110 at
series length 114, emits again even though 110 − 104 = 6 < 10 — the
cooldown compares series length, not candidate index, against the stored
index. -/
theorem cooldown_claim_counterexample :
    (detect_signal CONFIG initialDetectorState (dfA 100)).2 = none ∧
    (detect_signal CONFIG (detect_signal CONFIG initialDetectorState (dfA 100)).1
        (dfA 108)).1.last_signal_time = some 104 ∧
    ((detect_signal CONFIG (detect_signal CONFIG initialDetectorState (dfA 100)).1
        (dfA 108)).2.map Signal.bars_between) = some 8 ∧
    ((detect_signal CONFIG
        (detect_signal CONFIG (detect_signal CONFIG initialDetectorState (dfA 100)).1
          (dfA 108)).1
        (dfA 114)).2.map Signal.bars_between) = some 14 ∧
    (dfA 114).length - CONFIG.PIVOT_LOOKBACK - 1 = 110 ∧ 110 - 104 < 10 :=
  ⟨by decide, by decide, by decide, by decide, by decide, by decide⟩

/-- C1 amended: with a stored last-signal candidate index `k > 0`, every
call on a series whose length `N` satisfies `N − k < 10` returns no
signal and leaves the state untouched; since the candidate index of a
call is `N − lookback − 1`, this blocks candidate indices `k+1 … k+5`
under the configured lookback 3, and candidate `k+6` is first eligible. -/
theorem cooldown_gate_blocks (cfg : Config) (s : DetectorState) (df : List AugCandle)
    (k : ℕ) (hlast : s.last_signal_time = some k) (hk : k ≠ 0)
    (hcd : (df.length : ℤ) - (k : ℤ) < (signal_cooldown_bars : ℤ)) :
    detect_signal cfg s df = (s, none) := by
  unfold detect_signal
  by_cases hlen : df.length < 100
  · rw [if_pos hlen]
  · rw [if_neg hlen]
    have hb : cooldownBlocked s df = true := by
      unfold cooldownBlocked
      rw [hlast]
      simp [hk, hcd]
    rw [if_pos hb]

/-- Concrete instantiation of `cooldown_gate_blocks`: last signal at
candidate 104, series length 110 (candidate index 106), blocked. -/
theorem cooldown_gate_blocks_witness :
    detect_signal CONFIG ⟨[], some 104⟩ (dfA 110) = (⟨[], some 104⟩, none) :=
  cooldown_gate_blocks CONFIG ⟨[], some 104⟩ (dfA 110) 104 rfl (by decide) (by decide)

set_option maxRecDepth 8000 in
/-- C2 counterexample: at candidate pivot 112 the nearest prior same-type
pivot with gap ≥ 8 is the one at 104 (gap exactly 8) and its pattern test
fails, yet `detect_signal` keeps scanning and returns a signal matched to
the earlier pivot at 96 (bar gap 16) instead of returning no signal. -/
theorem nearest_pivot_counterexample :
    (detect_signal CONFIG initialDetectorState (dfB 100)).2 = none ∧
    (detect_signal CONFIG (detect_signal CONFIG initialDetectorState (dfB 100)).1
        (dfB 108)).2 = none ∧
    ((detect_signal CONFIG (detect_signal CONFIG initialDetectorState (dfB 100)).1
        (dfB 108)).1.recent_pivots.map Pivot.index) = [96, 104] ∧
    bullishTest ⟨112, PivotType.low, 80, some 20, 112⟩ ⟨104, PivotType.low, 70, some 5, 104⟩
      = false ∧
    ((detect_signal CONFIG
        (detect_signal CONFIG (detect_signal CONFIG initialDetectorState (dfB 100)).1
          (dfB 108)).1
        (dfB 116)).2.map Signal.bars_between) = some 16 :=
  ⟨by decide, by decide, by decide, by decide, by decide⟩

/-- C2 amended: once the length, cooldown and pivot gates pass, the
detector appends the candidate, prunes the window, scans the pruned
window in reverse order excluding the just-added pivot, and returns the
signal of the *first pivot that passes the full test* (same type, gap ≥ 8,
pattern and confidence): a nearer qualifying pivot that fails the pattern
or confidence test does not stop the scan, earlier pivots are still
tried; if none passes, no signal is returned, the last-signal marker is
unchanged, and the candidate pivot stays in the window. -/
theorem detect_signal_scan_first_full_match (cfg : Config) (s : DetectorState)
    (df : List AugCandle) (cand : Pivot)
    (hlen : ¬df.length < 100)
    (hcd : cooldownBlocked s df = false)
    (hci : (cfg.PIVOT_LOOKBACK : ℤ) ≤ (df.length : ℤ) - (cfg.PIVOT_LOOKBACK : ℤ) - 1)
    (hpv : mkPivot cfg df (candidateIdx cfg df) = some cand) :
    detect_signal cfg s df =
      (⟨prunedWindow cfg s df cand,
          if (scanResult cfg s df cand).isSome then some (candidateIdx cfg df)
          else s.last_signal_time⟩,
        scanResult cfg s df cand) ∧
    cand ∈ prunedWindow cfg s df cand := by
  constructor
  · unfold detect_signal
    rw [if_neg hlen, if_neg (by rw [hcd]; simp), if_neg (not_lt.mpr hci)]
    simp only [hpv]
    rw [findSignal_eq_find]
    unfold scanResult
    cases hfind : ((prunedWindow cfg s df cand).dropLast.reverse).find?
        (winsAgainst cfg df cand) with
    | none => rfl
    | some p => rfl
  · unfold prunedWindow
    refine List.mem_filter.mpr ⟨List.mem_append_right _ (List.mem_singleton_self cand), ?_⟩
    rw [mkPivot_index cfg df _ cand hpv]
    simp

/-- Concrete instantiation of `detect_signal_scan_first_full_match` on a
100-candle series whose candidate index 96 is a pivot low. -/
theorem detect_signal_scan_first_full_match_witness :
    (detect_signal CONFIG initialDetectorState (dfA 100) =
      (⟨prunedWindow CONFIG initialDetectorState (dfA 100)
            (⟨96, PivotType.low, 90, some 10, 96⟩ : Pivot),
          if (scanResult CONFIG initialDetectorState (dfA 100)
              (⟨96, PivotType.low, 90, some 10, 96⟩ : Pivot)).isSome
            then some (candidateIdx CONFIG (dfA 100))
            else initialDetectorState.last_signal_time⟩,
        scanResult CONFIG initialDetectorState (dfA 100)
          (⟨96, PivotType.low, 90, some 10, 96⟩ : Pivot))) ∧
    (⟨96, PivotType.low, 90, some 10, 96⟩ : Pivot) ∈
      prunedWindow CONFIG initialDetectorState (dfA 100)
        (⟨96, PivotType.low, 90, some 10, 96⟩ : Pivot) :=
  detect_signal_scan_first_full_match CONFIG initialDetectorState (dfA 100)
    (⟨96, PivotType.low, 90, some 10, 96⟩ : Pivot) (by decide) (by decide) (by decide)
    (by decide)

end Trader2
